import Mathlib

/-!
Shallow embedding of the layer-metadata core of the GDSII repository:
the `LayerReader` class of `GDSII_Reader.py` (insertion-ordered dict of layer
records built from a mapping file, a definition CSV and a color CSV, plus the
two derived address-string operations), and the per-record `bottom_top`
height computation of `model_main.py`.

Python dicts are modelled as insertion-ordered association lists with
update-in-place-or-append semantics.  A Python dict entry that is absent is
modelled as `Option.none`; machine-level concerns do not arise (Python ints
are unbounded, so `Int`/`Nat` are exact).  File handles are modelled as
`Option` of the parsed line/row list: `none` means the file does not exist.
-/

/-! ### Python dict model -/

section Dict

variable {α : Type} {β : Type} [DecidableEq α]

/-- `d[k]` lookup returning `none` when the key is absent (`dict.get`). -/
def dictGet : List (α × β) → α → Option β
  | [], _ => none
  | p :: rest, k => if p.1 = k then some p.2 else dictGet rest k

/-- `d[k] = v`: replace the value in place if the key exists (Python dicts
keep the original insertion position), otherwise append at the end. -/
def dictSet : List (α × β) → α → β → List (α × β)
  | [], k, v => [(k, v)]
  | p :: rest, k, v => if p.1 = k then (k, v) :: rest else p :: dictSet rest k v

/-- The key sequence of the dict, in insertion order. -/
def dictKeys (l : List (α × β)) : List α := l.map Prod.fst

theorem dictGet_dictSet_self (l : List (α × β)) (k : α) (v : β) :
    dictGet (dictSet l k v) k = some v := by
  induction l with
  | nil => simp [dictSet, dictGet]
  | cons p rest ih =>
    by_cases h : p.1 = k
    · simp [dictSet, dictGet, h]
    · simp [dictSet, dictGet, h, ih]

theorem dictGet_dictSet_ne (l : List (α × β)) (k' k : α) (v : β) (h : k' ≠ k) :
    dictGet (dictSet l k' v) k = dictGet l k := by
  induction l with
  | nil => simp [dictSet, dictGet, h]
  | cons p rest ih =>
    by_cases hp : p.1 = k'
    · simp [dictSet, dictGet, hp, h]
    · simp [dictSet, dictGet, hp, ih]

theorem mem_of_dictGet {l : List (α × β)} {k : α} {v : β}
    (h : dictGet l k = some v) : (k, v) ∈ l := by
  induction l with
  | nil => simp [dictGet] at h
  | cons p rest ih =>
    obtain ⟨a, b⟩ := p
    by_cases hp : a = k
    · subst hp
      simp [dictGet] at h
      simp [h]
    · simp [dictGet, hp] at h
      exact List.mem_cons_of_mem _ (ih h)

theorem mem_dictSet {l : List (α × β)} {k : α} {v : β} {q : α × β}
    (h : q ∈ dictSet l k v) : q = (k, v) ∨ q ∈ l := by
  induction l with
  | nil => simp [dictSet] at h; simp [h]
  | cons p rest ih =>
    by_cases hp : p.1 = k
    · simp [dictSet, hp] at h
      rcases h with h | h
      · exact Or.inl h
      · exact Or.inr (List.mem_cons_of_mem _ h)
    · simp [dictSet, hp] at h
      rcases h with h | h
      · exact Or.inr (by simp [h])
      · rcases ih h with h' | h'
        · exact Or.inl h'
        · exact Or.inr (List.mem_cons_of_mem _ h')

theorem mem_dictKeys_dictSet {l : List (α × β)} {k a : α} {v : β}
    (h : a ∈ dictKeys (dictSet l k v)) : a ∈ dictKeys l ∨ a = k := by
  induction l with
  | nil => simp [dictSet, dictKeys] at h; simp [h]
  | cons p rest ih =>
    by_cases hp : p.1 = k
    · simp [dictSet, dictKeys, hp] at h ⊢
      rcases h with h | h
      · exact Or.inr h
      · exact Or.inl (Or.inr h)
    · simp [dictSet, dictKeys, hp] at h ⊢
      rcases h with h | h
      · exact Or.inl (Or.inl h)
      · rcases ih (by simpa [dictKeys] using h) with h' | h'
        · exact Or.inl (Or.inr (by simpa [dictKeys] using h'))
        · exact Or.inr h'

theorem dictKeys_nodup_dictSet {l : List (α × β)} (k : α) (v : β)
    (h : (dictKeys l).Nodup) : (dictKeys (dictSet l k v)).Nodup := by
  induction l with
  | nil => simp [dictSet, dictKeys]
  | cons p rest ih =>
    rw [dictKeys, List.map_cons, List.nodup_cons] at h
    by_cases hp : p.1 = k
    · rw [dictKeys, dictSet, if_pos hp, List.map_cons, List.nodup_cons]
      exact ⟨by rw [← hp]; exact h.1, h.2⟩
    · rw [dictKeys, dictSet, if_neg hp, List.map_cons, List.nodup_cons]
      refine ⟨fun hmem => ?_, ih h.2⟩
      rcases mem_dictKeys_dictSet (l := rest) (by simpa [dictKeys] using hmem) with h' | h'
      · exact h.1 (by simpa [dictKeys] using h')
      · exact hp h'

end Dict

/-! ### Python string helpers

The source manipulates strings with `str.strip`, `str.split()` (no argument:
split on runs of whitespace, dropping empty fields), `str.startswith('#')`,
`int(...)` and `int(float(...))`.  They are re-implemented here by structural
recursion on the character list so that every definition evaluates inside the
kernel.  The whitespace set is the ASCII part of Python's; the sources in
this repository are ASCII. -/

/-- The ASCII whitespace characters recognised by `str.strip` / `str.split`. -/
def pyIsSpace (c : Char) : Bool :=
  c = ' ' || c = '\t' || c = '\n' || c = '\r' || c = '\x0b' || c = '\x0c'

/-- Drop leading whitespace. -/
def dropSpaces : List Char → List Char
  | [] => []
  | c :: rest => if pyIsSpace c then dropSpaces rest else c :: rest

/-- Python `s.strip()`: remove leading and trailing whitespace. -/
def pyStrip (s : String) : String :=
  ⟨(dropSpaces (dropSpaces s.data.reverse).reverse)⟩

/-- Worker for `pySplit`: accumulates the current (reversed) word. -/
def splitWsAux : List Char → List Char → List (List Char)
  | [], acc => if acc = [] then [] else [acc.reverse]
  | c :: rest, acc =>
    if pyIsSpace c then
      if acc = [] then splitWsAux rest [] else acc.reverse :: splitWsAux rest []
    else splitWsAux rest (c :: acc)

/-- Python `s.split()` with no argument: fields are maximal runs of
non-whitespace characters; no empty fields are produced. -/
def pySplit (s : String) : List String :=
  (splitWsAux s.data []).map fun l => ⟨l⟩

/-- Python `s.startswith('#')`. -/
def pyStartsHash (s : String) : Bool :=
  match s.data with
  | '#' :: _ => true
  | _ => false

/-- Digit-run scanner for Python base-10 integer literals, continuing after an
initial digit: a single `_` is allowed between digits (Python's digit-group
separator); a trailing or doubled `_` is invalid. -/
def pyDigitsAux : List Char → Nat → Option Nat
  | [], acc => some acc
  | '_' :: rest, acc =>
    match rest with
    | [] => none
    | d :: _ => if d.isDigit then pyDigitsAux rest acc else none
  | c :: rest, acc =>
    if c.isDigit then pyDigitsAux rest (acc * 10 + (c.toNat - 48)) else none

/-- A non-empty base-10 digit run (with Python underscore separators). -/
def pyDigits : List Char → Option Nat
  | [] => none
  | c :: rest => if c.isDigit then pyDigitsAux rest (c.toNat - 48) else none

/-- Python `int(s)` on the whitespace-free fields produced by `str.split()`:
an optional sign followed by a non-empty digit run; anything else raises
`ValueError`, modelled as `none`. -/
def pyInt (s : String) : Option Int :=
  match s.data with
  | '-' :: rest => (pyDigits rest).map fun n => -(n : Int)
  | '+' :: rest => (pyDigits rest).map fun n => (n : Int)
  | cs => (pyDigits cs).map fun n => (n : Int)

/-- Split a character list at the first `.`, if any. -/
def splitAtDot : List Char → List Char × Option (List Char)
  | [] => ([], none)
  | '.' :: rest => ([], some rest)
  | c :: rest =>
    let (ip, fp) := splitAtDot rest
    (c :: ip, fp)

/-- A possibly-empty digit run (empty counts as value 0). -/
def pyDigitsOrEmpty : List Char → Option Nat
  | [] => some 0
  | l => pyDigits l

/-- Python `int(float(s))` on the decimal-literal fragment of `float`'s
grammar: optional surrounding whitespace, optional sign, then digits with an
optional fractional part (at least one digit overall); truncation is toward
zero, so the value is the sign applied to the integer part.  Exponent,
`inf` and `nan` forms do not occur in the color files and are treated as
unparseable (for `inf`/`nan` Python's `int(...)` raises anyway). -/
def pyIntFloat (s : String) : Option Int :=
  let body := (pyStrip s).data
  let sb : Int × List Char :=
    match body with
    | '-' :: rest => (-1, rest)
    | '+' :: rest => (1, rest)
    | _ => (1, body)
  match splitAtDot sb.2 with
  | (ip, none) => (pyDigits ip).map fun n => sb.1 * (n : Int)
  | (ip, some fp) =>
    if ip = [] ∧ fp = [] then none
    else
      match pyDigitsOrEmpty ip, pyDigitsOrEmpty fp with
      | some n, some _ => some (sb.1 * (n : Int))
      | _, _ => none

/-- Python `a or b` for an optional string `a` and string `b`: `a` unless it
is missing or empty (falsy). -/
def pyOr (a : Option String) (b : String) : String :=
  match a with
  | some s => if s = "" then b else s
  | none => b

/-! ### Data model (`GDSII_Reader.py`, class `LayerReader`) -/

/-- One entry of `self.layers`.  The Python value is a dict whose keys
`name`, `purpose`, `name_gdsii_num`, `purpose_gdsii_num`, `description` are
always present after `_load_layer_def` (the numeric two may be `None`), and
whose keys `color`, `bottom`, `top` exist only after `_load_layer_color`
merged a row; `none` models both a `None` value and an absent key for the
optional fields. -/
structure LayerRecord where
  name : String
  purpose : String
  name_gdsii_num : Option Int
  purpose_gdsii_num : Option Int
  description : String
  color : Option String
  bottom : Option Int
  top : Option Int
deriving Repr, DecidableEq

/-- `self.layers`: insertion-ordered dict keyed by the layer key. -/
abbrev Layers := List (String × LayerRecord)

/-- `self.layer_mapping`: dict from `(name, purpose)` to `(layer, datatype)`. -/
abbrev LayerMapping := List ((String × String) × (Int × Int))

/-- The diagnostics the loaders print; modelled as structured values so the
claims about warnings are statable. -/
inductive Warning where
  | mappingFileNotFound
  | defFileNotFound
  | invalidMappingLine (lineNum : Nat) (line : String)
  | mappingReadError
  | noMappingFound (name purpose : String)
deriving Repr, DecidableEq

/-- The exceptions the two unguarded query operations can raise: `KeyError`
from `self.layers[layer_key]`, `TypeError` from formatting `None` with
`'%d'`. -/
inductive PyError where
  | keyError (k : String)
  | typeError
deriving Repr, DecidableEq

/-- One row of the definition CSV as produced by `csv.DictReader`: `none`
models a column absent from the header (`row.get` returns `None`). -/
structure DefRow where
  layer : Option String
  ascell : Option String
  name : Option String
  purpose : Option String
  description : Option String
deriving Repr, DecidableEq

/-- One row of the color CSV as produced by `csv.DictReader`. -/
structure ColorRow where
  layer : Option String
  color : Option String
  bottom : Option String
  top : Option String
deriving Repr, DecidableEq

/-- `(row.get('layer') or row.get('ascell') or '').strip()`. -/
def defRowKey (row : DefRow) : String :=
  pyStrip (pyOr row.layer (pyOr row.ascell ""))

/-- `(row.get('name') or '').strip()`. -/
def defRowName (row : DefRow) : String :=
  pyStrip (pyOr row.name "")

/-- `(row.get('purpose') or '').strip()`. -/
def defRowPurpose (row : DefRow) : String :=
  pyStrip (pyOr row.purpose "")

/-- `(row.get('description') or '').strip()`. -/
def defRowDescription (row : DefRow) : String :=
  pyStrip (pyOr row.description "")

/-- `(row.get('layer') or '').strip()` of a color row. -/
def colorRowKey (row : ColorRow) : String :=
  pyStrip (pyOr row.layer "")

/-- `(row.get('color') or '').strip()` of a color row. -/
def colorRowColor (row : ColorRow) : String :=
  pyStrip (pyOr row.color "")

/-- `int(float(v)) if v not in (None, '') else None`, with any exception
mapped to `None` by the surrounding `try`/`except`. -/
def normNum (v : Option String) : Option Int :=
  match v with
  | none => none
  | some s => if s = "" then none else pyIntFloat s

/-! ### `_load_layer_mapping` -/

/-- The `for line_num, line in enumerate(f, 1)` loop of `_load_layer_mapping`.
A stripped-empty or `#` line is skipped silently; a line with fewer than 4
whitespace fields is skipped with a warning; otherwise `int(parts[2])` /
`int(parts[3])` are converted — if either raises `ValueError`, the exception
escapes the loop into the outer `except`, which prints one error and abandons
the rest of the file (entries loaded so far are kept). -/
def loadMappingLines : LayerMapping → List Warning → Nat → List String →
    LayerMapping × List Warning
  | m, ws, _, [] => (m, ws)
  | m, ws, n, line :: rest =>
    let l := pyStrip line
    if l = "" ∨ pyStartsHash l then loadMappingLines m ws (n + 1) rest
    else
      let parts := pySplit l
      if 4 ≤ parts.length then
        match pyInt (parts.getD 2 ""), pyInt (parts.getD 3 "") with
        | some layerNumber, some datatype =>
          loadMappingLines
            (dictSet m (parts.getD 0 "", parts.getD 1 "") (layerNumber, datatype))
            ws (n + 1) rest
        | _, _ => (m, ws ++ [Warning.mappingReadError])
      else
        loadMappingLines m (ws ++ [Warning.invalidMappingLine n l]) (n + 1) rest

/-- `_load_layer_mapping`: starts from an empty dict; a missing file is a
warning and an empty mapping. -/
def load_layer_mapping (file : Option (List String)) : LayerMapping × List Warning :=
  match file with
  | none => ([], [Warning.mappingFileNotFound])
  | some lines => loadMappingLines [] [] 1 lines

/-! ### `_load_layer_def` -/

/-- The body of the row loop of `_load_layer_def`: rows lacking a non-empty
key, name or purpose are skipped silently; a `(name, purpose)` pair absent
from `self.layer_mapping` is a warning and the row is dropped; otherwise the
record is stored under the layer key with both GDSII numbers present. -/
def processDefRow (m : LayerMapping) (t : Layers) (ws : List Warning)
    (row : DefRow) : Layers × List Warning :=
  let layer_key := defRowKey row
  let name := defRowName row
  let purpose := defRowPurpose row
  let description := defRowDescription row
  if layer_key = "" ∨ name = "" ∨ purpose = "" then (t, ws)
  else
    match dictGet m (name, purpose) with
    | some ld =>
      (dictSet t layer_key
        { name := name, purpose := purpose,
          name_gdsii_num := some ld.1, purpose_gdsii_num := some ld.2,
          description := description,
          color := none, bottom := none, top := none }, ws)
    | none => (t, ws ++ [Warning.noMappingFound name purpose])

/-- The row loop of `_load_layer_def`. -/
def loadDefRows (m : LayerMapping) : Layers → List Warning → List DefRow →
    Layers × List Warning
  | t, ws, [] => (t, ws)
  | t, ws, row :: rest =>
    let tw := processDefRow m t ws row
    loadDefRows m tw.1 tw.2 rest

/-- `_load_layer_def`: a missing file is a warning and leaves `self.layers`
untouched. -/
def load_layer_def (m : LayerMapping) (t : Layers) (file : Option (List DefRow)) :
    Layers × List Warning :=
  match file with
  | none => (t, [Warning.defFileNotFound])
  | some rows => loadDefRows m t [] rows

/-! ### `_load_layer_color` -/

/-- The minimal entry created when a layer appears only in the color file. -/
def minimalEntry : LayerRecord :=
  { name := "", purpose := "",
    name_gdsii_num := none, purpose_gdsii_num := none,
    description := "",
    color := none, bottom := none, top := none }

/-- The body of the row loop of `_load_layer_color`: an empty key skips the
row; an unknown key first gets the minimal entry; then `color`, `bottom`,
`top` of the (existing or fresh) record are assigned.  The insert-then-assign
pair of the source collapses to one `dictSet` of the finished record, placed
exactly where Python's dict places it. -/
def processColorRow (t : Layers) (row : ColorRow) : Layers :=
  let layer_key := colorRowKey row
  let color := colorRowColor row
  let bottom_val := normNum row.bottom
  let top_val := normNum row.top
  if layer_key = "" then t
  else
    let base := (dictGet t layer_key).getD minimalEntry
    dictSet t layer_key
      { base with color := some color, bottom := bottom_val, top := top_val }

/-- The row loop of `_load_layer_color`. -/
def loadColorRows : Layers → List ColorRow → Layers
  | t, [] => t
  | t, row :: rest => loadColorRows (processColorRow t row) rest

/-- `_load_layer_color`: a missing color file is silent (`# Optional file`)
and leaves `self.layers` untouched; no code path of this loader warns (the
numeric coercion failures are swallowed). -/
def load_layer_color (t : Layers) (file : Option (List ColorRow)) :
    Layers × List Warning :=
  match file with
  | none => (t, [])
  | some rows => (loadColorRows t rows, [])

/-! ### `LayerReader.__init__` and the query operations -/

/-- The constructed reader: the table and every diagnostic printed while
loading, in order. -/
structure LayerReader where
  layers : Layers
  warnings : List Warning
deriving Repr, DecidableEq

/-- `LayerReader.__init__`: `self.layers = {}`, then mapping, definitions and
colors are loaded in that order. -/
def LayerReader.init (mappingFile : Option (List String))
    (defFile : Option (List DefRow)) (colorFile : Option (List ColorRow)) :
    LayerReader :=
  let mw := load_layer_mapping mappingFile
  let tw := load_layer_def mw.1 [] defFile
  let tc := load_layer_color tw.1 colorFile
  { layers := tc.1, warnings := mw.2 ++ tw.2 ++ tc.2 }

/-- `'%d/%d' % (layerNumber, datatype)`: plain base-10 integer formatting
with a `/` separator, no padding. -/
def formatLD (layerNumber datatype : Int) : String :=
  toString layerNumber ++ "/" ++ toString datatype

/-- `get_klayoutlayer_index`: `self.layers[layer_key]` raises `KeyError` for
an absent key; `'%d/%d'` raises `TypeError` when either number is `None`. -/
def get_klayoutlayer_index (t : Layers) (layer_key : String) :
    Except PyError String :=
  match dictGet t layer_key with
  | none => Except.error (PyError.keyError layer_key)
  | some r =>
    match r.name_gdsii_num, r.purpose_gdsii_num with
    | some ln, some dt => Except.ok (formatLD ln dt)
    | _, _ => Except.error PyError.typeError

/-- `gen_layer2index`: builds `{k: '%d/%d' % (...)}` over all entries in
iteration order; the first entry with a missing number raises `TypeError`,
which propagates out of the method. -/
def gen_layer2index : Layers → Except PyError (List (String × String))
  | [] => Except.ok []
  | p :: rest =>
    match p.2.name_gdsii_num, p.2.purpose_gdsii_num with
    | some ln, some dt =>
      (gen_layer2index rest).map fun l => (p.1, formatLD ln dt) :: l
    | _, _ => Except.error PyError.typeError

/-! ### `model_main.py`: the `bottom_top` loop

The script computes, per record, `z0 = float(b) * 100.0` and
`height = float(t - b) * 100.0`, replacing a zero height by `1.0`, and
`(0.0, 1.0)` when either bound is absent.  Since `b` and `t` are Python
ints here (`_load_layer_color` stores `int(float(...))` or `None`), the
values are integer multiples of the scale and the computation is modelled
exactly over `Int`; in particular `height == 0.0` holds iff `t = b`. -/

/-- `z_scale = 100.0`. -/
def z_scale : Int := 100

/-- The body of the `bottom_top[key] = (z0, height)` loop of
`model_main.py`, for one record. -/
def bottom_top_entry (r : LayerRecord) : Int × Int :=
  match r.bottom, r.top with
  | some b, some t =>
    let z0 := b * z_scale
    let height := (t - b) * z_scale
    (z0, if height = 0 then 1 else height)
  | _, _ => (0, 1)

/-- The whole `bottom_top` dict of `model_main.py`. -/
def gen_bottom_top (t : Layers) : List (String × (Int × Int)) :=
  t.map fun p => (p.1, bottom_top_entry p.2)

/-! ### Preservation lemmas -/

/-- A definition row whose `(name, purpose)` is unmapped (when the row
targets key `k`) never makes `k` appear. -/
theorem dictGet_processDefRow_none (m : LayerMapping) (t : Layers)
    (ws : List Warning) (row : DefRow) (k : String)
    (h : dictGet t k = none)
    (hrow : defRowKey row = k →
      dictGet m (defRowName row, defRowPurpose row) = none) :
    dictGet (processDefRow m t ws row).1 k = none := by
  by_cases hskip : defRowKey row = "" ∨ defRowName row = "" ∨ defRowPurpose row = ""
  · simpa [processDefRow, hskip] using h
  · cases hm : dictGet m (defRowName row, defRowPurpose row) with
    | none => simpa [processDefRow, hskip, hm] using h
    | some ld =>
      have hne : defRowKey row ≠ k := by
        intro he
        rw [hrow he] at hm
        cases hm
      simp only [processDefRow, if_neg hskip, hm]
      rw [dictGet_dictSet_ne _ _ _ _ hne]
      exact h

/-- Extension of the previous lemma over the whole definition-row loop. -/
theorem dictGet_loadDefRows_none (m : LayerMapping) (k : String) :
    ∀ (rows : List DefRow) (t : Layers) (ws : List Warning),
      dictGet t k = none →
      (∀ row ∈ rows, defRowKey row = k →
        dictGet m (defRowName row, defRowPurpose row) = none) →
      dictGet (loadDefRows m t ws rows).1 k = none := by
  intro rows
  induction rows with
  | nil =>
    intro t ws h _
    simpa [loadDefRows] using h
  | cons row rest ih =>
    intro t ws h hall
    rw [loadDefRows]
    exact ih _ _
      (dictGet_processDefRow_none m t ws row k h
        (hall row (List.mem_cons_self row rest)))
      fun r hr => hall r (List.mem_cons_of_mem _ hr)

/-- A color row with a different (or empty) key never makes `k` appear. -/
theorem dictGet_processColorRow_none (t : Layers) (row : ColorRow) (k : String)
    (h : dictGet t k = none) (hne : colorRowKey row ≠ k) :
    dictGet (processColorRow t row) k = none := by
  by_cases hk : colorRowKey row = ""
  · simpa [processColorRow, hk] using h
  · simp only [processColorRow, if_neg hk]
    rw [dictGet_dictSet_ne _ _ _ _ hne]
    exact h

/-- Extension of the previous lemma over the whole color-row loop. -/
theorem dictGet_loadColorRows_none (k : String) :
    ∀ (rows : List ColorRow) (t : Layers),
      dictGet t k = none →
      (∀ row ∈ rows, colorRowKey row ≠ k) →
      dictGet (loadColorRows t rows) k = none := by
  intro rows
  induction rows with
  | nil =>
    intro t h _
    simpa [loadColorRows] using h
  | cons row rest ih =>
    intro t h hall
    rw [loadColorRows]
    exact ih _
      (dictGet_processColorRow_none t row k h (hall row (List.mem_cons_self row rest)))
      fun r hr => hall r (List.mem_cons_of_mem _ hr)

/-- Claim C1: a definition-source row whose `(name, purpose)` pair has no
entry in the loaded mapping is dropped entirely: for any layer key `k` all of
whose definition rows are unmapped, and which no color row re-creates, the
final table has no record at `k` (in particular none with absent GDSII
numbers). -/
theorem unmapped_def_rows_produce_no_record (m : LayerMapping)
    (rows : List DefRow) (crows : List ColorRow) (k : String)
    (hdef : ∀ row ∈ rows, defRowKey row = k →
      dictGet m (defRowName row, defRowPurpose row) = none)
    (hcol : ∀ row ∈ crows, colorRowKey row ≠ k) :
    dictGet (load_layer_color (load_layer_def m [] (some rows)).1 (some crows)).1 k
      = none := by
  simp only [load_layer_def, load_layer_color]
  exact dictGet_loadColorRows_none k crows _
    (dictGet_loadDefRows_none m k rows [] [] rfl hdef) hcol

/-- Concrete instance of C1: the pair `(M9, drawing)` is not in the mapping,
so the definition row for key `MET9` leaves no trace in the table. -/
theorem unmapped_def_rows_produce_no_record_witness :
    dictGet (load_layer_color (load_layer_def [(("M1", "drawing"), (10, 0))] []
        (some [{ layer := some "MET9", ascell := none, name := some "M9",
                 purpose := some "drawing", description := none }])).1
      (some [])).1 "MET9" = none :=
  unmapped_def_rows_produce_no_record _ _ _ _ (by decide) (by decide)

/-- Claim C2: a malformed mapping line — per the spec, one that is non-empty,
not a comment, and has fewer than 4 whitespace-separated fields — causes only
that single line to be skipped with a warning, and loading continues with all
subsequent lines of the file unchanged: processing the file from the
malformed line onwards equals processing the remaining lines with the one
warning recorded.  In particular no such line raises or prevents later
well-formed lines from entering the mapping table. -/
theorem malformed_mapping_line_skipped (m : LayerMapping) (ws : List Warning)
    (n : Nat) (line : String) (rest : List String)
    (h1 : pyStrip line ≠ "") (h2 : pyStartsHash (pyStrip line) = false)
    (h3 : (pySplit (pyStrip line)).length < 4) :
    loadMappingLines m ws n (line :: rest) =
      loadMappingLines m (ws ++ [Warning.invalidMappingLine n (pyStrip line)])
        (n + 1) rest := by
  have hc1 : ¬ (pyStrip line = "" ∨ pyStartsHash (pyStrip line) = true) := by
    rintro (h | h)
    · exact h1 h
    · rw [h2] at h
      cases h
  have hc2 : ¬ 4 ≤ (pySplit (pyStrip line)).length := Nat.not_le.mpr h3
  simp only [loadMappingLines, if_neg hc1, if_neg hc2]

/-- Concrete instance of C2: the 2-field line `foo bar` is skipped with a
warning, does not appear in `layer_mapping`, and the following well-formed
line still enters the table. -/
theorem malformed_mapping_line_skipped_witness :
    (pyStrip "foo bar" ≠ "" ∧ pyStartsHash (pyStrip "foo bar") = false ∧
      (pySplit (pyStrip "foo bar")).length < 4) ∧
    loadMappingLines [] [] 1 ["foo bar", "M1 drawing 10 0"] =
      loadMappingLines [] [Warning.invalidMappingLine 1 (pyStrip "foo bar")] 2
        ["M1 drawing 10 0"] ∧
    dictGet (load_layer_mapping (some ["foo bar", "M1 drawing 10 0"])).1
      ("foo", "bar") = none ∧
    dictGet (load_layer_mapping (some ["foo bar", "M1 drawing 10 0"])).1
      ("M1", "drawing") = some (10, 0) :=
  ⟨⟨by decide, by decide, by decide⟩,
   malformed_mapping_line_skipped [] [] 1 "foo bar" ["M1 drawing 10 0"]
     (by decide) (by decide) (by decide),
   by decide, by decide⟩

/-- Claim C3: for a key whose record carries both GDSII numbers `L` and `D`,
`get_klayoutlayer_index` (the spec's `gdsii_address_string`) returns exactly
the string `L/D`: plain base-10 integer rendering joined by `/`, with no
padding. -/
theorem gdsii_address_string_format (t : Layers) (k : String) (r : LayerRecord)
    (L D : Int) (h1 : dictGet t k = some r) (h2 : r.name_gdsii_num = some L)
    (h3 : r.purpose_gdsii_num = some D) :
    get_klayoutlayer_index t k = Except.ok (toString L ++ "/" ++ toString D) := by
  simp [get_klayoutlayer_index, h1, h2, h3, formatLD]

/-- Concrete instance of C3: a record with numbers `10` and `0` formats to
the exact string `10/0`. -/
theorem gdsii_address_string_format_witness :
    get_klayoutlayer_index [("MET1",
      { name := "M1", purpose := "drawing", name_gdsii_num := some 10,
        purpose_gdsii_num := some 0, description := "", color := none,
        bottom := none, top := none })] "MET1" = Except.ok "10/0" :=
  gdsii_address_string_format _ "MET1" _ 10 0 rfl rfl rfl

/-- Claim C4: loading is total by construction (no code path of the model
raises), and for every combination of missing (`none`) or empty source
files the constructor yields the empty, valid table; a missing mapping or
definition file surfaces exactly its warning, while a missing color file
contributes no diagnostic at all. -/
theorem load_never_fatal_on_missing_or_empty (mf : Option (List String))
    (df : Option (List DefRow)) (cf : Option (List ColorRow))
    (hm : mf = none ∨ mf = some []) (hd : df = none ∨ df = some [])
    (hc : cf = none ∨ cf = some []) :
    (LayerReader.init mf df cf).layers = [] ∧
    (LayerReader.init mf df cf).warnings =
      (if mf = none then [Warning.mappingFileNotFound] else []) ++
      (if df = none then [Warning.defFileNotFound] else []) := by
  rcases hm with rfl | rfl <;> rcases hd with rfl | rfl <;> rcases hc with rfl | rfl <;>
    simp [LayerReader.init, load_layer_mapping, load_layer_def, load_layer_color,
      loadMappingLines, loadDefRows, loadColorRows]

/-- Concrete instance of C4: all three files missing gives the empty table
with exactly the two not-found warnings. -/
theorem load_never_fatal_on_missing_or_empty_witness :
    (LayerReader.init none none none).layers = [] ∧
    (LayerReader.init none none none).warnings =
      (if (none : Option (List String)) = none then [Warning.mappingFileNotFound]
        else []) ++
      (if (none : Option (List DefRow)) = none then [Warning.defFileNotFound]
        else []) :=
  load_never_fatal_on_missing_or_empty none none none (Or.inl rfl) (Or.inl rfl)
    (Or.inl rfl)

/-! ### The numbers-set-together invariant (C5) -/

/-- `gdsii_layer` and `gdsii_datatype` of a record are both present or both
absent. -/
def NumsTogether (r : LayerRecord) : Prop :=
  r.name_gdsii_num.isSome = r.purpose_gdsii_num.isSome

theorem numsTogether_processDefRow {m : LayerMapping} {t : Layers}
    {ws : List Warning} {row : DefRow}
    (h : ∀ p ∈ t, NumsTogether p.2) :
    ∀ p ∈ (processDefRow m t ws row).1, NumsTogether p.2 := by
  intro p hp
  by_cases hskip : defRowKey row = "" ∨ defRowName row = "" ∨ defRowPurpose row = ""
  · exact h p (by simpa [processDefRow, hskip] using hp)
  · cases hm : dictGet m (defRowName row, defRowPurpose row) with
    | none => exact h p (by simpa [processDefRow, hskip, hm] using hp)
    | some ld =>
      simp only [processDefRow, if_neg hskip, hm] at hp
      rcases mem_dictSet hp with h' | h'
      · subst h'
        simp [NumsTogether]
      · exact h p h'

theorem numsTogether_loadDefRows (m : LayerMapping) :
    ∀ (rows : List DefRow) (t : Layers) (ws : List Warning),
      (∀ p ∈ t, NumsTogether p.2) →
      ∀ p ∈ (loadDefRows m t ws rows).1, NumsTogether p.2 := by
  intro rows
  induction rows with
  | nil =>
    intro t ws h
    simpa [loadDefRows] using h
  | cons row rest ih =>
    intro t ws h
    rw [loadDefRows]
    exact ih _ _ (numsTogether_processDefRow h)

theorem numsTogether_processColorRow {t : Layers} {row : ColorRow}
    (h : ∀ p ∈ t, NumsTogether p.2) :
    ∀ p ∈ processColorRow t row, NumsTogether p.2 := by
  intro p hp
  by_cases hk : colorRowKey row = ""
  · exact h p (by simpa [processColorRow, hk] using hp)
  · simp only [processColorRow, if_neg hk] at hp
    rcases mem_dictSet hp with h' | h'
    · subst h'
      cases hg : dictGet t (colorRowKey row) with
      | none => simp [NumsTogether, hg, minimalEntry]
      | some r =>
        have hr := h _ (mem_of_dictGet hg)
        simpa [NumsTogether, hg] using hr
    · exact h p h'

theorem numsTogether_loadColorRows :
    ∀ (rows : List ColorRow) (t : Layers),
      (∀ p ∈ t, NumsTogether p.2) →
      ∀ p ∈ loadColorRows t rows, NumsTogether p.2 := by
  intro rows
  induction rows with
  | nil =>
    intro t h
    simpa [loadColorRows] using h
  | cons row rest ih =>
    intro t h
    rw [loadColorRows]
    exact ih _ (numsTogether_processColorRow h)

/-- Claim C5: in every record of a loaded table, `gdsii_layer`
(`name_gdsii_num`) and `gdsii_datatype` (`purpose_gdsii_num`) are both
present or both absent; no reachable table has a record with exactly one of
the two set. -/
theorem gdsii_numbers_set_together (mf : Option (List String))
    (df : Option (List DefRow)) (cf : Option (List ColorRow))
    (k : String) (r : LayerRecord)
    (h : dictGet (LayerReader.init mf df cf).layers k = some r) :
    r.name_gdsii_num.isSome = r.purpose_gdsii_num.isSome := by
  have hdef : ∀ p ∈ (load_layer_def (load_layer_mapping mf).1 [] df).1,
      NumsTogether p.2 := by
    cases df with
    | none => simp [load_layer_def]
    | some rows => exact numsTogether_loadDefRows _ rows [] [] (by simp)
  have hcol : ∀ p ∈ (LayerReader.init mf df cf).layers, NumsTogether p.2 := by
    cases cf with
    | none => simpa [LayerReader.init, load_layer_color] using hdef
    | some crows =>
      simpa [LayerReader.init, load_layer_color] using
        numsTogether_loadColorRows crows _ hdef
  exact hcol _ (mem_of_dictGet h)

/-- Concrete instance of C5: a table loaded from one mapping line, one
definition row and one color-only row satisfies the invariant at the
definition-derived key. -/
theorem gdsii_numbers_set_together_witness :
    (({ name := "M1", purpose := "drawing", name_gdsii_num := some 10,
        purpose_gdsii_num := some 0, description := "", color := none,
        bottom := none, top := none } : LayerRecord).name_gdsii_num).isSome =
      ({ name := "M1", purpose := "drawing", name_gdsii_num := some 10,
         purpose_gdsii_num := some 0, description := "", color := none,
         bottom := none, top := none } : LayerRecord).purpose_gdsii_num.isSome :=
  gdsii_numbers_set_together (some ["M1 drawing 10 0"])
    (some [{ layer := some "MET1", ascell := none, name := some "M1",
             purpose := some "drawing", description := none }])
    (some [{ layer := some "OBS", color := some "gray", bottom := some "0",
             top := some "1" }])
    "MET1" _ (by decide)

/-! ### Key uniqueness (C6) -/

theorem nodup_processDefRow {m : LayerMapping} {t : Layers} {ws : List Warning}
    {row : DefRow} (h : (dictKeys t).Nodup) :
    (dictKeys (processDefRow m t ws row).1).Nodup := by
  by_cases hskip : defRowKey row = "" ∨ defRowName row = "" ∨ defRowPurpose row = ""
  · simpa [processDefRow, hskip] using h
  · cases hm : dictGet m (defRowName row, defRowPurpose row) with
    | none => simpa [processDefRow, hskip, hm] using h
    | some ld =>
      simp only [processDefRow, if_neg hskip, hm]
      exact dictKeys_nodup_dictSet _ _ h

theorem nodup_loadDefRows (m : LayerMapping) :
    ∀ (rows : List DefRow) (t : Layers) (ws : List Warning),
      (dictKeys t).Nodup → (dictKeys (loadDefRows m t ws rows).1).Nodup := by
  intro rows
  induction rows with
  | nil =>
    intro t ws h
    simpa [loadDefRows] using h
  | cons row rest ih =>
    intro t ws h
    rw [loadDefRows]
    exact ih _ _ (nodup_processDefRow h)

theorem nodup_processColorRow {t : Layers} {row : ColorRow}
    (h : (dictKeys t).Nodup) : (dictKeys (processColorRow t row)).Nodup := by
  by_cases hk : colorRowKey row = ""
  · simpa [processColorRow, hk] using h
  · simp only [processColorRow, if_neg hk]
    exact dictKeys_nodup_dictSet _ _ h

theorem nodup_loadColorRows :
    ∀ (rows : List ColorRow) (t : Layers),
      (dictKeys t).Nodup → (dictKeys (loadColorRows t rows)).Nodup := by
  intro rows
  induction rows with
  | nil =>
    intro t h
    simpa [loadColorRows] using h
  | cons row rest ih =>
    intro t h
    rw [loadColorRows]
    exact ih _ (nodup_processColorRow h)

/-- Claim C6: for all mapping/definition/color inputs, the layer key is a
unique identifier — the key sequence of the loaded table has no duplicate,
so every key holds at most one record. -/
theorem layer_key_unique (mf : Option (List String))
    (df : Option (List DefRow)) (cf : Option (List ColorRow)) :
    (dictKeys (LayerReader.init mf df cf).layers).Nodup := by
  have hdef : (dictKeys (load_layer_def (load_layer_mapping mf).1 [] df).1).Nodup := by
    cases df with
    | none => simp [load_layer_def, dictKeys]
    | some rows => exact nodup_loadDefRows _ rows [] [] (by simp [dictKeys])
  cases cf with
  | none => simpa [LayerReader.init, load_layer_color] using hdef
  | some crows =>
    simpa [LayerReader.init, load_layer_color] using nodup_loadColorRows crows _ hdef

/-- Claim C7: a color-source row whose (non-empty) layer key is not yet in
the table creates a fresh record with empty name, purpose and description,
both GDSII numbers absent, and the row's color/bottom/top values present. -/
theorem color_row_creates_minimal_record (t : Layers) (row : ColorRow)
    (k : String) (b tp : Int)
    (hk : colorRowKey row = k) (hk0 : k ≠ "")
    (habs : dictGet t k = none)
    (hb : normNum row.bottom = some b) (ht : normNum row.top = some tp) :
    dictGet (processColorRow t row) k = some
      { name := "", purpose := "", name_gdsii_num := none,
        purpose_gdsii_num := none, description := "",
        color := some (colorRowColor row), bottom := some b, top := some tp } := by
  subst hk
  simp only [processColorRow, if_neg hk0, habs, hb, ht, Option.getD_none]
  rw [dictGet_dictSet_self]
  rfl

/-- Concrete instance of C7: a color row for the unknown key `MET1` with
color `red`, bottom `1.5` and top `2.5` yields the minimal record with
color `red`, bottom `1` and top `2`. -/
theorem color_row_creates_minimal_record_witness :
    dictGet (processColorRow []
      { layer := some "MET1", color := some "red", bottom := some "1.5",
        top := some "2.5" }) "MET1" = some
      { name := "", purpose := "", name_gdsii_num := none,
        purpose_gdsii_num := none, description := "",
        color := some (colorRowColor
          { layer := some "MET1", color := some "red", bottom := some "1.5",
            top := some "2.5" }), bottom := some 1, top := some 2 } :=
  color_row_creates_minimal_record [] _ "MET1" 1 2 (by decide) (by decide) rfl
    (by decide) (by decide)

/-- `gen_layer2index` raises as soon as the table holds any record with a
missing GDSII number. -/
theorem gen_layer2index_error {t : Layers} {p : String × LayerRecord}
    (hp : p ∈ t)
    (hbad : p.2.name_gdsii_num = none ∨ p.2.purpose_gdsii_num = none) :
    gen_layer2index t = Except.error PyError.typeError := by
  induction t with
  | nil => cases hp
  | cons q rest ih =>
    rcases List.mem_cons.mp hp with rfl | hp'
    · rcases hbad with hb | hb
      · simp [gen_layer2index, hb]
      · cases hq : p.2.name_gdsii_num <;> simp [gen_layer2index, hb, hq]
    · cases hq1 : q.2.name_gdsii_num with
      | none => simp [gen_layer2index, hq1]
      | some ln =>
        cases hq2 : q.2.purpose_gdsii_num with
        | none => simp [gen_layer2index, hq1, hq2]
        | some dt => simp [gen_layer2index, hq1, hq2, ih hp', Except.map]

/-- Claim C8: `get_klayoutlayer_index` fails with a `KeyError` lookup error
for every key absent from the table, fails with a `TypeError` (never a
sentinel value) for every present key lacking a GDSII number, and
`gen_layer2index` fails with a `TypeError` whenever any record of the table
lacks a number — the `'%d/%d'` formatting is unguarded. -/
theorem unguarded_address_lookup_fails (t : Layers) (k : String) :
    (dictGet t k = none →
      get_klayoutlayer_index t k = Except.error (PyError.keyError k)) ∧
    (∀ r, dictGet t k = some r →
      r.name_gdsii_num = none ∨ r.purpose_gdsii_num = none →
      get_klayoutlayer_index t k = Except.error PyError.typeError) ∧
    (∀ p ∈ t, p.2.name_gdsii_num = none ∨ p.2.purpose_gdsii_num = none →
      gen_layer2index t = Except.error PyError.typeError) := by
  refine ⟨fun h => by simp [get_klayoutlayer_index, h], fun r hr hbad => ?_,
    fun p hp hbad => gen_layer2index_error hp hbad⟩
  rcases hbad with hb | hb
  · simp [get_klayoutlayer_index, hr, hb]
  · cases hq : r.name_gdsii_num <;> simp [get_klayoutlayer_index, hr, hb, hq]

/-- Concrete instance of C8: lookup of an absent key, lookup of a key whose
record lacks numbers, and the full map over a table containing such a
record, all fail. -/
theorem unguarded_address_lookup_fails_witness :
    get_klayoutlayer_index [] "M1" = Except.error (PyError.keyError "M1") ∧
    get_klayoutlayer_index [("X", minimalEntry)] "X" =
      Except.error PyError.typeError ∧
    gen_layer2index [("X", minimalEntry)] = Except.error PyError.typeError :=
  ⟨(unguarded_address_lookup_fails [] "M1").1 rfl,
   (unguarded_address_lookup_fails [("X", minimalEntry)] "X").2.1 minimalEntry
     (by decide) (Or.inl rfl),
   (unguarded_address_lookup_fails [("X", minimalEntry)] "X").2.2
     ("X", minimalEntry) (List.mem_singleton.mpr rfl) (Or.inl rfl)⟩

/-- Claim C9: the color-file strings `1.5`/`1.5` both coerce to the integer
`1`, and for every record whose bottom and top hold equal values the derived
extrusion height of `model_main.py` is the fixed minimum `1.0` (one source
unit) rather than zero. -/
theorem equal_bottom_top_height_is_one :
    pyIntFloat "1.5" = some 1 ∧
    ∀ (r : LayerRecord) (b : Int), r.bottom = some b → r.top = some b →
      (bottom_top_entry r).2 = 1 := by
  refine ⟨by decide, fun r b hb ht => ?_⟩
  simp [bottom_top_entry, hb, ht, z_scale, sub_self]

/-- Concrete instance of C9: bottom and top both `1` give height `1`. -/
theorem equal_bottom_top_height_is_one_witness :
    (bottom_top_entry { minimalEntry with bottom := some 1, top := some 1 }).2
      = 1 :=
  equal_bottom_top_height_is_one.2 _ 1 rfl rfl

/-- Claim C10: merging a color row into an existing record assigns only the
`color`, `bottom` and `top` fields; `name`, `purpose`, both GDSII numbers
and `description` are exactly those of the previous record. -/
theorem color_merge_updates_only_color_fields (t : Layers) (row : ColorRow)
    (k : String) (r : LayerRecord)
    (hk : colorRowKey row = k) (hk0 : k ≠ "") (h : dictGet t k = some r) :
    dictGet (processColorRow t row) k = some
      { r with color := some (colorRowColor row),
               bottom := normNum row.bottom, top := normNum row.top } := by
  subst hk
  simp only [processColorRow, if_neg hk0, h, Option.getD_some]
  rw [dictGet_dictSet_self]

/-- Concrete instance of C10: merging a color row into the `MET1` record
updates color/bottom/top and leaves the other five fields untouched. -/
theorem color_merge_updates_only_color_fields_witness :
    dictGet (processColorRow
      [("MET1", { name := "M1", purpose := "drawing", name_gdsii_num := some 10,
                  purpose_gdsii_num := some 0, description := "metal",
                  color := none, bottom := none, top := none })]
      { layer := some "MET1", color := some "blue", bottom := some "2",
        top := some "3.5" }) "MET1" = some
      { name := "M1", purpose := "drawing", name_gdsii_num := some 10,
        purpose_gdsii_num := some 0, description := "metal",
        color := some "blue", bottom := some 2, top := some 3 } :=
  color_merge_updates_only_color_fields _ _ "MET1"
    { name := "M1", purpose := "drawing", name_gdsii_num := some 10,
      purpose_gdsii_num := some 0, description := "metal",
      color := none, bottom := none, top := none }
    (by decide) (by decide) (by decide)
